import Mathlib

/-!
Shallow embedding of `src/app.py`, a Streamlit expense-tracking app
("Sistema de Gastos da Malharia").  The Python program consists of:

* a fixed credential dictionary `USERS` and `check_login` (SHA-256 compare);
* `init_session`, which fills the missing keys of `st.session_state`;
* `login_screen`, setting the `authenticated` flag on success;
* `register_expense`, which computes `valor_total = quantidade * valor_unit`
  and inserts one row into the SQLite table `gastos`;
* `dashboard`, which reads the table back with `pd.read_sql`, groups by
  column names, draws charts and offers an Excel export;
* `main`, the per-render entry point routing between the views.

Decimal (Python float) quantities are modelled as rationals, the SQLite
table as a list of rows tagged with the auto-increment primary key, and
pandas DataFrames as a column-name list plus rows of cells.  Operations
that raise in Python (such as indexing a DataFrame by a column name that
is not present, which raises `KeyError`) are modelled with `Except`.
-/

/-- A calendar date as produced by `st.date_input` (a `datetime.date`). -/
structure Date where
  day : Nat
  month : Nat
  year : Nat
deriving DecidableEq, Repr

/-- Two-digit zero padding, as `%d` and `%m` in `strftime`. -/
def pad2 (n : Nat) : String :=
  if n < 10 then "0" ++ toString n else toString n

/-- `d.strftime("%d/%m/%Y")` (src/app.py line 96). -/
def strftime_ddmmyyyy (d : Date) : String :=
  pad2 d.day ++ "/" ++ pad2 d.month ++ "/" ++ toString d.year

/-- One row of the SQLite table `gastos`, excluding the auto-increment
`id` column (src/app.py lines 17-30). -/
structure Gasto where
  data : String
  categoria : String
  descricao : String
  quantidade : ℚ
  unidade : String
  valor_unitario : ℚ
  valor_total : ℚ
  forma_pagamento : String
  observacoes : String
deriving DecidableEq, Repr

/-- The SQLite table `gastos`: the auto-increment counter together with
the stored rows, each tagged with its primary key `id`. -/
structure GastosTable where
  nextId : Nat
  rows : List (Nat × Gasto)
deriving DecidableEq, Repr

/-- The table right after `CREATE TABLE IF NOT EXISTS` on a fresh
database: no rows, first `AUTOINCREMENT` id is 1. -/
def GastosTable.empty : GastosTable := ⟨1, []⟩

/-- `INSERT INTO gastos (...) VALUES (...)` (src/app.py lines 90-105):
the new row receives the next auto-increment id. -/
def GastosTable.insert (t : GastosTable) (g : Gasto) : GastosTable :=
  ⟨t.nextId + 1, t.rows ++ [(t.nextId, g)]⟩

/-- `SELECT * FROM gastos` (src/app.py line 112): an unfiltered
select-all, returning the rows in primary-key order. -/
def GastosTable.selectAll (t : GastosTable) : List (Nat × Gasto) := t.rows

section Credentials

/- The password hash is `hashlib.sha256(...).hexdigest()`, an external
library function; the embedding abstracts it as a parameter used
consistently for both the stored and the supplied password. -/
variable (sha256hex : String → String)

/-- The fixed credential dictionary `USERS` (src/app.py lines 34-37). -/
def USERS : List (String × String) :=
  [("admin", sha256hex "1234"), ("user", sha256hex "senha")]

/-- `check_login(username, password)` (src/app.py lines 40-42):
`USERS.get(username) == hashed`, where `dict.get` yields `None` for a
missing key and `None == hashed` is `False`. -/
def check_login (username password : String) : Bool :=
  (USERS sha256hex).lookup username == some (sha256hex password)

end Credentials

/-- A cell of a pandas DataFrame: the columns of `gastos` hold either
text or numbers, and `pd.to_datetime` turns text into datetimes. -/
inductive Cell where
  | str : String → Cell
  | num : ℚ → Cell
  | datetime : Date → Cell
deriving DecidableEq, Repr

/-- A pandas DataFrame: ordered column names plus rows of cells (each
row listing one cell per column). -/
structure DataFrame where
  columns : List String
  rowsD : List (List Cell)
deriving DecidableEq, Repr

/-- The Streamlit `st.session_state` keys this app uses: a key that has
not been assigned yet is `none` (in Python, absent from the mapping). -/
structure SessionState where
  authenticated : Option Bool
  data : Option DataFrame
deriving DecidableEq, Repr

/-- The column names of the in-memory DataFrame created by
`init_session` (src/app.py lines 48-50): the nine display names. -/
def displayColumns : List String :=
  ["Data", "Categoria", "Descrição", "Quantidade", "Unidade",
   "Valor Unitário (R$)", "Valor Total (R$)", "Forma de Pagamento", "Observações"]

/-- `init_session()` (src/app.py lines 44-50): each key is initialised
only when absent from `st.session_state`. -/
def init_session (s : SessionState) : SessionState :=
  let s1 := if s.authenticated = none then { s with authenticated := some false } else s
  if s1.data = none then { s1 with data := some ⟨displayColumns, []⟩ } else s1

/-- Messages the app surfaces through Streamlit widgets
(`st.error`, `st.success`, `st.info`, `st.markdown`). -/
inductive UIEvent where
  | errorMsg : String → UIEvent
  | successMsg : String → UIEvent
  | infoMsg : String → UIEvent
deriving DecidableEq, Repr

/-- `login_screen()` (src/app.py lines 53-62) after the Entrar button
was pressed: on `check_login` success set the `authenticated` key to
`True`; otherwise emit the inline `st.error` message. -/
def login_screen (sha256hex : String → String) (s : SessionState)
    (username password : String) : SessionState × List UIEvent :=
  if check_login sha256hex username password then
    ({ s with authenticated := some true }, [])
  else
    (s, [UIEvent.errorMsg "❌ Usuário ou senha incorretos."])

/-- The values read from the entry-form widgets of `register_expense`
(src/app.py lines 69-85). -/
structure FormInput where
  data : Date
  categoria : String
  descricao : String
  quantidade : ℚ
  unidade : String
  valor_unit : ℚ
  forma_pagamento : String
  obs : String
deriving DecidableEq, Repr

/-- `valor_total = quantidade * valor_unit` (src/app.py line 81), the
derived total displayed live in the form (line 82). -/
def form_valor_total (inp : FormInput) : ℚ :=
  inp.quantidade * inp.valor_unit

/-- The row built by the `INSERT` of `register_expense`
(src/app.py lines 96-104). -/
def mkGasto (inp : FormInput) : Gasto :=
  { data := strftime_ddmmyyyy inp.data
    categoria := inp.categoria
    descricao := inp.descricao
    quantidade := inp.quantidade
    unidade := inp.unidade
    valor_unitario := inp.valor_unit
    valor_total := form_valor_total inp
    forma_pagamento := inp.forma_pagamento
    observacoes := inp.obs }

/-- The whole mutable state the app touches: the Streamlit session and
the SQLite database. -/
structure AppState where
  session : SessionState
  db : GastosTable
deriving DecidableEq, Repr

/-- `register_expense()` (src/app.py lines 65-106) with the submit
button pressed: one `INSERT` into `gastos` and a success message; the
session state is not touched. -/
def register_expense (st : AppState) (inp : FormInput) : AppState × List UIEvent :=
  ({ st with db := st.db.insert (mkGasto inp) },
   [UIEvent.successMsg "✅ Gasto registrado com sucesso!"])

/-- The column names of the SQLite table `gastos` in schema order
(src/app.py lines 18-29), which are also the column names of the
DataFrame `pd.read_sql("SELECT * FROM gastos", conn)` returns. -/
def sqlColumns : List String :=
  ["id", "data", "categoria", "descricao", "quantidade", "unidade",
   "valor_unitario", "valor_total", "forma_pagamento", "observacoes"]

/-- `pd.read_sql("SELECT * FROM gastos", conn)` (src/app.py line 112):
a DataFrame whose columns are the table's columns and whose rows are
the table's rows in select-all order. -/
def read_sql_gastos (t : GastosTable) : DataFrame :=
  { columns := sqlColumns
    rowsD := t.selectAll.map fun p =>
      [Cell.num p.1, Cell.str p.2.data, Cell.str p.2.categoria,
       Cell.str p.2.descricao, Cell.num p.2.quantidade, Cell.str p.2.unidade,
       Cell.num p.2.valor_unitario, Cell.num p.2.valor_total,
       Cell.str p.2.forma_pagamento, Cell.str p.2.observacoes] }

/-- Position of a column name in a DataFrame, `none` when the DataFrame
has no such column (pandas raises `KeyError` in that case). -/
def DataFrame.colIndex (df : DataFrame) (c : String) : Option Nat :=
  df.columns.findIdx? (· == c)

/-- Numeric value of a cell (the aggregated columns are numeric). -/
def cellNum : Cell → ℚ
  | .num q => q
  | _ => 0

/-- Add `v` to the group of key `k`, opening a new group when `k` has
not been seen yet. -/
def addToGroup : List (Cell × ℚ) → Cell → ℚ → List (Cell × ℚ)
  | [], k, v => [(k, v)]
  | (k', s) :: rest, k, v =>
      if k' = k then (k, s + v) :: rest else (k', s) :: addToGroup rest k v

/-- `df.groupby(key)[val].sum()` (src/app.py lines 122 and 127): group
the rows by the `key` column and sum the `val` column per group.  When
either column name is absent pandas raises `KeyError`, modelled as
`Except.error` carrying the missing name (`groupby` looks `key` up
first). -/
def DataFrame.groupbySum (df : DataFrame) (key val : String) :
    Except String (List (Cell × ℚ)) :=
  match df.colIndex key with
  | none => .error key
  | some ki =>
    match df.colIndex val with
    | none => .error val
    | some vi =>
      .ok (df.rowsD.foldl
        (fun acc row => addToGroup acc (row.getD ki (.str "")) (cellNum (row.getD vi (.str ""))))
        [])

/-- `pd.to_datetime(s, format="%d/%m/%Y")`: parse a `dd/mm/yyyy`
string back into a date. -/
def strptime_ddmmyyyy (s : String) : Option Date :=
  match s.splitOn "/" with
  | [d, m, y] =>
    match d.toNat?, m.toNat?, y.toNat? with
    | some dd, some mm, some yy => some ⟨dd, mm, yy⟩
    | _, _, _ => none
  | _ => none

/-- `pd.to_datetime` applied to one cell: a `dd/mm/yyyy` text cell
becomes a datetime cell. -/
def cellToDatetime : Cell → Cell
  | .str s =>
    match strptime_ddmmyyyy s with
    | some d => .datetime d
    | none => .str s
  | cell => cell

/-- `df["Data"] = pd.to_datetime(df["Data"], format="%d/%m/%Y")`
(src/app.py line 126): replace the cells of column `c` by parsed
datetimes.  `Except.error c` models the `KeyError` pandas raises when
the DataFrame has no column `c`. -/
def DataFrame.toDatetimeCol (df : DataFrame) (c : String) :
    Except String DataFrame :=
  match df.colIndex c with
  | none => .error c
  | some ci =>
    .ok { df with
          rowsD := df.rowsD.map fun row => row.set ci (cellToDatetime (row.getD ci (.str ""))) }

/-- What one run of `dashboard()` produces. -/
inductive DashboardResult where
  | emptyNotice : DashboardResult
  | keyError : String → DashboardResult
  | rendered : List (Cell × ℚ) → List (Cell × ℚ) → DataFrame → DashboardResult
deriving DecidableEq, Repr

/-- `dashboard()` (src/app.py lines 109-142): read all rows; on an
empty set emit the info notice and return; otherwise compute the
by-category aggregation (line 122), convert the date column and compute
the by-date aggregation (lines 126-127), and build the Excel export
from the DataFrame (`df.to_excel(writer, index=False)`, line 134, whose
sheet is the DataFrame itself: its columns as the header row, then one
data row per DataFrame row).  A `KeyError` aborts the run. -/
def dashboard (t : GastosTable) : DashboardResult :=
  let df := read_sql_gastos t
  if df.rowsD.isEmpty then .emptyNotice
  else
    match df.groupbySum "Categoria" "Valor Total (R$)" with
    | .error c => .keyError c
    | .ok gastos_categoria =>
      match df.toDatetimeCol "Data" with
      | .error c => .keyError c
      | .ok df2 =>
        match df2.groupbySum "Data" "Valor Total (R$)" with
        | .error c => .keyError c
        | .ok gastos_dia => .rendered gastos_categoria gastos_dia df2

/-- `dashboard` as called from `main`: it reads only the database, never
the session state. -/
def dashboard_app (st : AppState) : DashboardResult :=
  dashboard st.db

/-- The sidebar options of `main` (src/app.py line 151). -/
inductive MenuOp where
  | registrarGasto
  | dashboardOp
  | sair
deriving DecidableEq, Repr

/-- What one render of `main` shows. -/
inductive View where
  | loginView
  | registerView
  | dashboardView
  | rerunView
deriving DecidableEq, Repr

/-- One render of `main()` (src/app.py lines 145-158): run
`init_session`, then route on the `authenticated` flag and the sidebar
selection.  `Sair` clears the flag and calls `st.experimental_rerun()`,
so that render shows no view of its own (`rerunView`). -/
def main_render (st : AppState) (op : MenuOp) : AppState × View :=
  let s0 := init_session st.session
  if s0.authenticated.getD false then
    match op with
    | .registrarGasto => ({ st with session := s0 }, .registerView)
    | .dashboardOp => ({ st with session := s0 }, .dashboardView)
    | .sair => ({ st with session := { s0 with authenticated := some false } }, .rerunView)
  else
    ({ st with session := s0 }, .loginView)

/-- The form input of the end-to-end scenario in the spec (§8.7):
date 01/06/2024, category Matéria-prima, quantity 10, unit Kg,
unit value 5.00. -/
def exampleInput : FormInput :=
  { data := ⟨1, 6, 2024⟩
    categoria := "Matéria-prima"
    descricao := "fio de algodão"
    quantidade := 10
    unidade := "Kg"
    valor_unit := 5
    forma_pagamento := "PIX"
    obs := "" }

/-- A second form input sharing the same date as `exampleInput`. -/
def exampleInputB : FormInput :=
  { exampleInput with categoria := "Embalagens", descricao := "caixas", valor_unit := 3 }

/-- The store after submitting `exampleInput` once. -/
def sampleTable1 : GastosTable :=
  GastosTable.empty.insert (mkGasto exampleInput)

/-- The store after submitting `exampleInput` and then `exampleInputB`
(two records with the same formatted date). -/
def sampleTable2 : GastosTable :=
  (GastosTable.empty.insert (mkGasto exampleInput)).insert (mkGasto exampleInputB)

/-- The rows `[(n, g1), (n+1, g2), ...]` obtained by tagging `gs` with
consecutive ids starting at `n`: the shape of the table rows produced by
consecutive inserts. -/
def tagFrom (n : Nat) : List Gasto → List (Nat × Gasto)
  | [] => []
  | g :: gs => (n, g) :: tagFrom (n + 1) gs

lemma tagFrom_length (n : Nat) (gs : List Gasto) :
    (tagFrom n gs).length = gs.length := by
  induction gs generalizing n with
  | nil => rfl
  | cons g gs ih => simp [tagFrom, ih]

lemma tagFrom_map_snd (n : Nat) (gs : List Gasto) :
    (tagFrom n gs).map Prod.snd = gs := by
  induction gs generalizing n with
  | nil => rfl
  | cons g gs ih => simp [tagFrom, ih]

lemma tagFrom_fst_ge {n k : Nat} {gs : List Gasto}
    (h : k ∈ (tagFrom n gs).map Prod.fst) : n ≤ k := by
  induction gs generalizing n with
  | nil => simp [tagFrom] at h
  | cons g gs ih =>
    simp only [tagFrom, List.map_cons, List.mem_cons] at h
    rcases h with rfl | h
    · exact le_refl k
    · exact le_trans (Nat.le_succ n) (ih h)

lemma tagFrom_sorted (n : Nat) (gs : List Gasto) :
    List.Sorted (· < ·) ((tagFrom n gs).map Prod.fst) := by
  induction gs generalizing n with
  | nil => simp [tagFrom]
  | cons g gs ih =>
    simp only [tagFrom, List.map_cons, List.sorted_cons]
    exact ⟨fun b hb => Nat.lt_of_lt_of_le (Nat.lt_succ_self n) (tagFrom_fst_ge hb), ih (n + 1)⟩

lemma foldl_insert_eq (gs : List Gasto) (t : GastosTable) :
    gs.foldl GastosTable.insert t = ⟨t.nextId + gs.length, t.rows ++ tagFrom t.nextId gs⟩ := by
  induction gs generalizing t with
  | nil => cases t; simp [tagFrom]
  | cons g gs ih =>
    rw [List.foldl_cons, ih]
    cases t
    simp only [GastosTable.insert, tagFrom, GastosTable.mk.injEq, List.append_assoc,
      List.singleton_append, List.length_cons]
    exact ⟨by omega, trivial⟩

lemma foldl_register_db (inps : List FormInput) (st : AppState) :
    (inps.foldl (fun st inp => (register_expense st inp).1) st).db =
      (inps.map mkGasto).foldl GastosTable.insert st.db := by
  induction inps generalizing st with
  | nil => rfl
  | cons inp inps ih =>
    rw [List.foldl_cons, ih]
    rfl

lemma addToGroup_snd_sum (acc : List (Cell × ℚ)) (k : Cell) (v : ℚ) :
    ((addToGroup acc k v).map Prod.snd).sum = (acc.map Prod.snd).sum + v := by
  induction acc with
  | nil => simp [addToGroup]
  | cons p rest ih =>
    obtain ⟨k', s⟩ := p
    by_cases h : k' = k <;> simp [addToGroup, h, ih] <;> ring

lemma foldl_addToGroup_sum (rows : List (List Cell)) (ki vi : Nat) (acc : List (Cell × ℚ)) :
    ((rows.foldl
        (fun acc row => addToGroup acc (row.getD ki (.str "")) (cellNum (row.getD vi (.str ""))))
        acc).map Prod.snd).sum =
      (acc.map Prod.snd).sum + (rows.map fun row => cellNum (row.getD vi (.str ""))).sum := by
  induction rows generalizing acc with
  | nil => simp
  | cons r rs ih =>
    simp only [List.foldl_cons, ih, addToGroup_snd_sum, List.map_cons, List.sum_cons]
    ring

/-- The grouping machinery itself conserves the aggregated column: when
both column names are present, the per-group sums add up to the sum of
the value column over all rows.  (In the program this situation is never
reached for the intended columns, see the claim C1 theorem.) -/
theorem groupbySum_conservation (df : DataFrame) (key val : String)
    (ki vi : Nat) (gs : List (Cell × ℚ))
    (hk : df.colIndex key = some ki) (hv : df.colIndex val = some vi)
    (hg : df.groupbySum key val = .ok gs) :
    (gs.map Prod.snd).sum = (df.rowsD.map fun row => cellNum (row.getD vi (.str ""))).sum := by
  unfold DataFrame.groupbySum at hg
  rw [hk, hv] at hg
  simp only [Except.ok.injEq] at hg
  subst hg
  simpa using foldl_addToGroup_sum df.rowsD ki vi []

/-- Claim C1: the spec's conservation law for the by-category
aggregation never gets a chance to hold, because `dashboard` crashes on
every non-empty record set: `pd.read_sql` returns the SQLite column
names (`categoria`, `valor_total`, ...), yet line 122 groups by the
display name `Categoria`, which is not a column of that DataFrame, so
pandas raises `KeyError('Categoria')`.  Evaluated here at a store
holding one record. -/
theorem dashboard_keyerror_on_nonempty_store :
    dashboard sampleTable1 = DashboardResult.keyError "Categoria" := by
  rfl

/-- Claim C2: `check_login` returns `true` exactly when the stored hash
for the username equals the hash of the supplied password, and returns
plain `false` (no distinguishing error) for every username absent from
`USERS`, whatever the password. -/
theorem check_login_iff_hash_match (h : String → String) (u p : String) :
    (check_login h u p = true ↔ (USERS h).lookup u = some (h p)) ∧
    ((USERS h).lookup u = none → check_login h u p = false) := by
  refine ⟨?_, fun hn => ?_⟩
  · simp [check_login]
  · simp [check_login, hn]

/-- Witness for claim C2 at the unknown username `"ghost"`. -/
theorem check_login_iff_hash_match_witness :
    check_login (fun s => s) "ghost" "1234" = false :=
  (check_login_iff_hash_match (fun s => s) "ghost" "1234").2 rfl

/-- Claim C3: submitting N records through `register_expense` into an
initially empty durable store and then reading it back with the
dashboard's select-all yields exactly N rows, carrying the submitted
records in order, with the primary keys strictly ascending. -/
theorem append_then_selectAll (inps : List FormInput) (s : SessionState) :
    ((inps.foldl (fun st inp => (register_expense st inp).1)
        ⟨s, GastosTable.empty⟩).db.selectAll).length = inps.length ∧
    ((inps.foldl (fun st inp => (register_expense st inp).1)
        ⟨s, GastosTable.empty⟩).db.selectAll).map Prod.snd = inps.map mkGasto ∧
    List.Sorted (· < ·)
      (((inps.foldl (fun st inp => (register_expense st inp).1)
          ⟨s, GastosTable.empty⟩).db.selectAll).map Prod.fst) := by
  have hdb : (inps.foldl (fun st inp => (register_expense st inp).1)
      ⟨s, GastosTable.empty⟩).db = ⟨1 + (inps.map mkGasto).length, tagFrom 1 (inps.map mkGasto)⟩ := by
    rw [foldl_register_db, foldl_insert_eq]
    rfl
  rw [hdb]
  refine ⟨?_, ?_, ?_⟩
  · simp [GastosTable.selectAll, tagFrom_length]
  · simp [GastosTable.selectAll, tagFrom_map_snd]
  · simpa [GastosTable.selectAll] using tagFrom_sorted 1 (inps.map mkGasto)

/-- Claim C4: the spec expects the exported sheet's header row to be
the nine display column names, but (a) on every non-empty store the
dashboard raises `KeyError('Categoria')` before reaching the export,
and (b) the DataFrame the export serialises has the ten SQLite column
names (`id` included), not the nine display names.  Evaluated at a
store holding one record. -/
theorem export_header_is_sql_columns :
    dashboard sampleTable1 = DashboardResult.keyError "Categoria" ∧
    (read_sql_gastos sampleTable1).columns = sqlColumns ∧
    (read_sql_gastos sampleTable1).columns ≠ displayColumns := by
  refine ⟨rfl, rfl, ?_⟩
  decide

/-- Claim C5: the total displayed in the form before submission and the
`valor_total` field of the row inserted at submission both equal
`quantidade * valor_unit`. -/
theorem valor_total_is_product (inp : FormInput) (st : AppState)
    (hq : 1 ≤ inp.quantidade) (hu : 0 ≤ inp.valor_unit) :
    form_valor_total inp = inp.quantidade * inp.valor_unit ∧
    (mkGasto inp).valor_total = inp.quantidade * inp.valor_unit ∧
    (register_expense st inp).1.db.rows = st.db.rows ++ [(st.db.nextId, mkGasto inp)] :=
  ⟨rfl, rfl, rfl⟩

/-- Witness for claim C5 at the spec's §8 scenario: quantity 10 at unit
value 5 gives total 50. -/
theorem valor_total_is_product_witness :
    form_valor_total exampleInput = 10 * 5 :=
  (valor_total_is_product exampleInput ⟨⟨none, none⟩, GastosTable.empty⟩
    (by norm_num [exampleInput]) (by norm_num [exampleInput])).1

/-- Claim C6: the by-date aggregation of the spec never runs: the
dashboard crashes with `KeyError('Categoria')` at line 122 already, and
its date step would fail too, since the DataFrame read from SQLite has
no column `Data` (only `data`).  Evaluated at a store holding two
records with the same formatted date `01/06/2024`. -/
theorem dashboard_bydate_never_runs :
    (mkGasto exampleInput).data = (mkGasto exampleInputB).data ∧
    dashboard sampleTable2 = DashboardResult.keyError "Categoria" ∧
    (read_sql_gastos sampleTable2).colIndex "Data" = none := by
  exact ⟨rfl, rfl, rfl⟩

/-- Claim C7: a failed login attempt (wrong password or unknown user)
leaves the `authenticated` flag exactly as it was and emits the inline
error message. -/
theorem login_failure_keeps_state (h : String → String) (s : SessionState)
    (u p : String) (hf : check_login h u p = false) :
    (login_screen h s u p).1.authenticated = s.authenticated ∧
    UIEvent.errorMsg "❌ Usuário ou senha incorretos." ∈ (login_screen h s u p).2 := by
  simp [login_screen, hf]

/-- Witness for claim C7: the user `admin` with a wrong password. -/
theorem login_failure_keeps_state_witness :
    (login_screen (fun x => x) ⟨some false, none⟩ "admin" "wrong").1.authenticated =
      (⟨some false, none⟩ : SessionState).authenticated ∧
    UIEvent.errorMsg "❌ Usuário ou senha incorretos." ∈
      (login_screen (fun x => x) ⟨some false, none⟩ "admin" "wrong").2 :=
  login_failure_keeps_state (fun x => x) ⟨some false, none⟩ "admin" "wrong" rfl

/-- Claim C8: from an authenticated session, selecting `Sair` clears
the `authenticated` flag, and the following render of `main` (whatever
the sidebar selection) shows the login view. -/
theorem logout_then_login_view (st : AppState) (op : MenuOp)
    (ha : st.session.authenticated = some true) :
    (main_render st .sair).1.session.authenticated = some false ∧
    (main_render (main_render st .sair).1 op).2 = View.loginView := by
  obtain ⟨⟨auth, dta⟩, db⟩ := st
  simp only at ha
  subst ha
  cases dta <;> simp [main_render, init_session]

/-- Witness for claim C8 from a freshly authenticated session. -/
theorem logout_then_login_view_witness :
    (main_render ⟨⟨some true, none⟩, GastosTable.empty⟩ .sair).1.session.authenticated = some false ∧
    (main_render (main_render ⟨⟨some true, none⟩, GastosTable.empty⟩ .sair).1
      .dashboardOp).2 = View.loginView :=
  logout_then_login_view ⟨⟨some true, none⟩, GastosTable.empty⟩ .dashboardOp rfl

/-- Claim C9: `init_session` only fills absent keys, so on a session
that already has both the `authenticated` flag and the `data`
collection it is the identity: authentication state survives
re-renders. -/
theorem init_session_preserves_present_keys (s : SessionState) (a : Bool) (d : DataFrame)
    (ha : s.authenticated = some a) (hd : s.data = some d) :
    init_session s = s := by
  simp [init_session, ha, hd]

/-- Witness for claim C9 on an authenticated session with the data
collection present. -/
theorem init_session_preserves_present_keys_witness :
    init_session ⟨some true, some ⟨displayColumns, []⟩⟩ =
      (⟨some true, some ⟨displayColumns, []⟩⟩ : SessionState) :=
  init_session_preserves_present_keys _ true ⟨displayColumns, []⟩ rfl rfl

/-- Claim C10: a submission appends exactly one row to the SQLite store
and leaves the whole session state (including the in-memory `data`
DataFrame) untouched, and the dashboard's result depends only on the
database, not on the session. -/
theorem register_writes_db_only (st : AppState) (inp : FormInput) (sess : SessionState) :
    (register_expense st inp).1.session = st.session ∧
    (register_expense st inp).1.db.rows = st.db.rows ++ [(st.db.nextId, mkGasto inp)] ∧
    (register_expense st inp).1.db.rows.length = st.db.rows.length + 1 ∧
    dashboard_app { session := sess, db := (register_expense st inp).1.db } =
      dashboard_app (register_expense st inp).1 := by
  refine ⟨rfl, rfl, ?_, rfl⟩
  simp [register_expense, GastosTable.insert]
